import Mathlib

/-!
# Verification of the stock-exchange-ui real-time synchronization module

Shallow embedding of the client-side live-data synchronization logic of the
repository (`src/services/webSocketService.ts`, `src/app/page.tsx`,
`src/components/charts/StockChart.tsx`) together with proofs of the
spec's testable properties.

Conventions:
* JavaScript numbers that only ever hold finite JSON-decoded decimals are
  modelled as `ℚ`; where the full JS `number` domain matters (the
  validity filter over chart datasets) we use the explicit `JSNum` type
  with `NaN` and the two infinities.
* `String.prototype.toUpperCase()` is modelled character-wise with Lean's
  `Char.toUpper` (the Basic-Latin case mapping, which agrees with
  JavaScript on the ASCII ticker symbols this application handles).
* Stateful React/service code becomes explicit state-passing functions;
  event sequences are folded over the state.
-/

/-! ## JavaScript value primitives -/

/-- The JavaScript `number` domain as needed by the chart-data validity
filter: `NaN`, the two infinities, and finite values (as rationals). -/
inductive JSNum where
  | nan : JSNum
  | posInf : JSNum
  | negInf : JSNum
  | fin : ℚ → JSNum
deriving DecidableEq, Repr

namespace JSNum

/-- JS truthiness of a number: `0`, `-0` and `NaN` are falsy. -/
def truthy : JSNum → Bool
  | nan => false
  | posInf => true
  | negInf => true
  | fin q => !(q == 0)

/-- JS `isNaN` on a number. -/
def jsIsNaN : JSNum → Bool
  | nan => true
  | _ => false

/-- JS comparison `x > 0` (false for `NaN`). -/
def gtZero : JSNum → Bool
  | nan => false
  | posInf => true
  | negInf => false
  | fin q => decide (0 < q)

/-- Finiteness of a JS number (what `Number.isFinite` would check). -/
def isFin : JSNum → Bool
  | fin _ => true
  | _ => false

end JSNum

/-- Character-wise model of `String.prototype.toUpperCase()` (exact for
the ASCII range used by ticker symbols): uppercase every character of
the string.  Stated over the underlying character list (extensionally
equal to `String.map Char.toUpper`, see `jsToUpper_eq_map`). -/
def jsToUpper (s : String) : String := ⟨s.data.map Char.toUpper⟩

/-! ## Timeframe Baseline Tracker (`src/app/page.tsx`)

The data-loading effect (lines 49-125) and the WebSocket price-update
effect (lines 128-185), the manual `refreshPrice` (lines 188-216), and
the market-status poll (lines 219-241). -/

/-- The filter applied to the `Price` dataset on a series reload
(page.tsx line 77-79): `price && !isNaN(price) && price > 0`. -/
def validFilter (v : JSNum) : Bool := v.truthy && !v.jsIsNaN && v.gtZero

/-- Spec-worded variant of the reload filter, for refinement comparison
only: "filter the channel's decimal sequence to strictly-positive finite
values" (spec section 4.3). -/
def specValidFilter (v : JSNum) : Bool := v.isFin && v.gtZero

/-- Baseline establishment on a series reload over the full JS number
domain (page.tsx lines 76-117): filter the `Price` dataset, and when at
least one value remains return `(validPrices[0],
validPrices[validPrices.length - 1])`; otherwise the baseline stays in
its reset state, modelled as `none`. -/
def establishBaseline (prices : List JSNum) : Option (JSNum × JSNum) :=
  let validPrices := prices.filter validFilter
  if validPrices.length > 0 then
    some (validPrices.getD 0 JSNum.nan,
          validPrices.getD (validPrices.length - 1) JSNum.nan)
  else
    none

/-- The `timeframeChangeMetrics` state of `HomePage` (page.tsx lines 30-34). -/
structure ChangeMetrics where
  priceChange : ℚ
  percentChange : ℚ
  isPriceUp : Bool
deriving DecidableEq, Repr

/-- The price-related state of `HomePage` (page.tsx lines 17-34),
restricted to the fields the baseline tracker reads and writes. -/
structure PageState where
  symbol : String
  timeframe : String
  currentTimeframeStartPrice : ℚ
  currentPrice : ℚ
  metrics : ChangeMetrics
deriving DecidableEq, Repr

/-- The reset performed at the start of every data load
(page.tsx lines 50-61). -/
def pageReset (sym tf : String) : PageState :=
  { symbol := sym
    timeframe := tf
    currentTimeframeStartPrice := 0
    currentPrice := 0
    metrics := { priceChange := 0, percentChange := 0, isPriceUp := false } }

/-- One series reload for `sym`/`tf` whose `Price` dataset decoded to the
finite values `prices` (page.tsx lines 49-125): reset all price state,
then establish the timeframe baseline from the filtered dataset. -/
def reloadStep (sym tf : String) (prices : List ℚ) : PageState :=
  let reset := pageReset sym tf
  let validPrices := prices.filter (fun q => validFilter (JSNum.fin q))
  if validPrices.length > 0 then
    let timeframeStartPrice := validPrices.getD 0 0
    let timeframeEndPrice := validPrices.getD (validPrices.length - 1) 0
    let change := timeframeEndPrice - timeframeStartPrice
    let percentChange :=
      if 0 < timeframeStartPrice then change / timeframeStartPrice * 100 else 0
    { reset with
        currentTimeframeStartPrice := timeframeStartPrice
        currentPrice := timeframeEndPrice
        metrics :=
          { priceChange := change
            percentChange := percentChange
            isPriceUp := decide (0 ≤ change) } }
  else
    reset

/-- The guard of the WebSocket price-update effect (page.tsx lines
130-136): a tick is dropped unless the baseline start price is positive
and the tick's symbol matches the active symbol case-insensitively. -/
def tickAccepted (st : PageState) (tickSymbol : String) : Bool :=
  !(decide (st.currentTimeframeStartPrice ≤ 0))
    && (jsToUpper tickSymbol == jsToUpper st.symbol)

/-- The WebSocket price-update effect (page.tsx lines 128-163): on an
accepted tick update `currentPrice` and recompute the change metrics
from the established baseline; a rejected tick changes nothing. -/
def processTick (st : PageState) (tickSymbol : String) (tickPrice : ℚ) : PageState :=
  if tickAccepted st tickSymbol then
    let change := tickPrice - st.currentTimeframeStartPrice
    let percentChange := change / st.currentTimeframeStartPrice * 100
    { st with
        currentPrice := tickPrice
        metrics :=
          { priceChange := change
            percentChange := percentChange
            isPriceUp := decide (0 ≤ change) } }
  else
    st

/-- Model of `refreshPrice` (page.tsx lines 188-216) with the freshly fetched
price: recomputes the metrics only when a positive baseline exists. -/
def refreshStep (st : PageState) (freshPrice : ℚ) : PageState :=
  if 0 < st.currentTimeframeStartPrice then
    let change := freshPrice - st.currentTimeframeStartPrice
    let percentChange := change / st.currentTimeframeStartPrice * 100
    { st with
        currentPrice := freshPrice
        metrics :=
          { priceChange := change
            percentChange := percentChange
            isPriceUp := decide (0 ≤ change) } }
  else
    st

/-- The events that mutate the page's price state. -/
inductive PageEvent where
  | reload (sym tf : String) (prices : List ℚ)
  | tick (sym : String) (price : ℚ)
  | refresh (price : ℚ)
deriving DecidableEq, Repr

/-- Dispatch one page event. -/
def stepEvent (st : PageState) : PageEvent → PageState
  | .reload sym tf prices => reloadStep sym tf prices
  | .tick sym price => processTick st sym price
  | .refresh price => refreshStep st price

/-- Run a sequence of page events. -/
def runEvents (st : PageState) (es : List PageEvent) : PageState :=
  es.foldl stepEvent st

/-- Initial `HomePage` state (page.tsx lines 17-34): symbol "ARM",
timeframe "1m", zero baseline and zero metrics. -/
def initialPageState : PageState := pageReset "ARM" "1m"

/-- JS `toFixed(2)` on a rational, as a rational: round to two decimal
places. -/
def toFixed2 (q : ℚ) : ℚ := (round (q * 100) : ℤ) / 100

/-! ## Chart tooltip and market poll (`StockChart.tsx`, `page.tsx`) -/

/-- Per-point price change in `CustomTooltip` (StockChart.tsx lines
269-270): guarded by `timeframeStartPrice > 0`. -/
def tooltipPriceChange (timeframeStartPrice p : ℚ) : ℚ :=
  if 0 < timeframeStartPrice then p - timeframeStartPrice else 0

/-- Per-point percent change in `CustomTooltip` (StockChart.tsx lines
271-274): guarded by `timeframeStartPrice > 0`, so the division never
has a zero divisor. -/
def tooltipPercentChange (timeframeStartPrice p : ℚ) : ℚ :=
  if 0 < timeframeStartPrice then
    tooltipPriceChange timeframeStartPrice p / timeframeStartPrice * 100
  else 0

/-- The interval (milliseconds) handed to `setInterval` by the
market-status poll effect (page.tsx line 238). The code passes the
constant `30_000`; it does not consult the market-open flag, which we
make explicit by taking the flag as an (unused) argument. -/
def pollIntervalMs (_isMarketOpen : Bool) : ℕ := 30000

/-- Whether one run of `checkMarketStatusAndUpdatePrices` (page.tsx lines
222-234) calls `refreshPrice`: only when the market is open and a
positive baseline exists (line 228). -/
def pollRefreshesPrice (isOpen : Bool) (startPrice : ℚ) : Bool :=
  isOpen && decide (0 < startPrice)

/-- The refresh interval of the superseded `HomePage` variant that is
also in the repository (unnamed file, `setupRefreshTimer`):
`isMarketOpen ? 15000 : 60000`. -/
def legacyRefreshIntervalMs (isMarketOpen : Bool) : ℕ :=
  if isMarketOpen then 15000 else 60000

/-! ## Chart data and live append (`src/types/index.ts`, `page.tsx`) -/

/-- The `ChartData` shape (types/index.ts): title, axis labels, label sequence and
the dataset map. The map is split into its `Price` entry (possibly
absent) and the remaining entries, which the live-append path never
touches. -/
structure ChartData where
  title : String
  xAxisLabel : String
  yAxisLabel : String
  labels : List String
  priceDataset : Option (List ℚ)
  otherDatasets : List (String × List ℚ)
deriving DecidableEq, Repr

/-- The `setChartData` updater run for an accepted tick (page.tsx lines
166-184): spread the previous object, append the tick's label to
`labels` and its price to `datasets.Price` (created as `[]` first when
absent); every other field and dataset is carried over unchanged. -/
def appendTick (cd : ChartData) (label : String) (price : ℚ) : ChartData :=
  { cd with
      labels := cd.labels ++ [label]
      priceDataset := some ((cd.priceDataset.getD []) ++ [price]) }

/-! ## Chart Incremental Renderer (`src/components/charts/StockChart.tsx`) -/

/-- Constant `SKETCHING_CONFIG.POINTS_PER_STEP` (StockChart.tsx line 55). -/
def POINTS_PER_STEP : ℕ := 6

/-- Constant `SKETCHING_CONFIG.INITIAL_POINTS` (StockChart.tsx line 57). -/
def INITIAL_POINTS : ℕ := 8

/-- Constant `SKETCHING_CONFIG.ENABLE_FOR_TIMEFRAMES` (StockChart.tsx line 58). -/
def ENABLE_FOR_TIMEFRAMES : List String := ["1d", "1w", "1m"]

/-- Constant `SKETCHING_CONFIG.MIN_POINTS_FOR_ANIMATION` (StockChart.tsx line 59). -/
def MIN_POINTS_FOR_ANIMATION : ℕ := 20

/-- Constant `SKETCHING_CONFIG.MAX_POINTS_FOR_ANIMATION` (StockChart.tsx line 60). -/
def MAX_POINTS_FOR_ANIMATION : ℕ := 300

/-- Model of `shouldAnimate` (StockChart.tsx lines 74-85): requires data with a
label sequence, an eligible timeframe, and a point count inside the
configured band. -/
def shouldAnimate (cd : Option ChartData) (timeframe : String) : Bool :=
  match cd with
  | none => false
  | some c =>
    let pointCount := c.labels.length
    let isEligibleTimeframe := ENABLE_FOR_TIMEFRAMES.contains timeframe
    let hasAppropriateSize :=
      decide (MIN_POINTS_FOR_ANIMATION ≤ pointCount)
        && decide (pointCount ≤ MAX_POINTS_FOR_ANIMATION)
    isEligibleTimeframe && hasAppropriateSize

/-- The successive values `addMorePoints` (StockChart.tsx lines 132-152)
assigns to `displayedPointCount` after `current`, stopping once the
count has reached `totalPoints`: each step adds `POINTS_PER_STEP`
clamped to the total. -/
def revealStepsFrom (current totalPoints : ℕ) : List ℕ :=
  if totalPoints ≤ current then []
  else
    let next := min (current + POINTS_PER_STEP) totalPoints
    next :: revealStepsFrom next totalPoints
termination_by totalPoints - current
decreasing_by
  simp only [POINTS_PER_STEP] at *
  omega

/-- The full sequence of `displayedPointCount` values produced by an
animated reload (StockChart.tsx lines 122-158): the initial
`INITIAL_POINTS` assignment followed by the `addMorePoints` steps. -/
def revealSeq (totalPoints : ℕ) : List ℕ :=
  INITIAL_POINTS :: revealStepsFrom INITIAL_POINTS totalPoints

/-- The sequence of `displayedPointCount` values a full data refresh
produces (StockChart.tsx lines 120-166): the animated reveal when
`shouldAnimate` holds, otherwise all points at once. -/
def fullReloadCounts (cd : ChartData) (timeframe : String) : List ℕ :=
  if shouldAnimate (some cd) timeframe then revealSeq cd.labels.length
  else [cd.labels.length]

/-- Result of the `useMemo` in `StockChart` (StockChart.tsx lines
178-232). A data row keeps its original label (`name`) and its price;
the `index` field of the source is the row's list position. -/
structure ChartMemoResult where
  displayedData : List (String × ℚ)
  allDataForCalculations : List (String × ℚ)
  yAxisDomain : ℚ × ℚ
  chartColor : String
deriving DecidableEq, Repr

/-- The complete row list built from `chartData` (StockChart.tsx lines
190-194): one row per label, with `datasets.Price[index]` or `0` when
the `Price` dataset is absent.  An out-of-range index reads as `0`,
which the validity filter below then drops, matching how an `undefined`
entry behaves in the source. -/
def chartAllData (cd : ChartData) : List (String × ℚ) :=
  cd.labels.mapIdx fun index label =>
    (label, match cd.priceDataset with
            | some ps => ps.getD index 0
            | none => 0)

/-- The `useMemo` body (StockChart.tsx lines 178-232): complete rows,
the truncated `displayed` slice, the Y-axis domain computed from the
complete rows only, and the line color from the direction flag. -/
def chartMemo (cd : Option ChartData) (isPriceUp : Bool)
    (displayedPointCount : ℕ) : ChartMemoResult :=
  match cd with
  | none =>
    { displayedData := []
      allDataForCalculations := []
      yAxisDomain := (0, 100)
      chartColor := "#3b82f6" }
  | some c =>
    let allData := chartAllData c
    let actualDisplayCount := min displayedPointCount allData.length
    let displayed := allData.take actualDisplayCount
    let validPrices := allData.filter fun item => validFilter (JSNum.fin item.2)
    let domain : ℚ × ℚ :=
      match validPrices with
      | [] => (0, 100)
      | item :: rest =>
        let minPrice := (rest.map Prod.snd).foldl min item.2
        let maxPrice := (rest.map Prod.snd).foldl max item.2
        let priceRange := maxPrice - minPrice
        let pricePadding := max (priceRange * (8 / 100)) (maxPrice * (2 / 100))
        (max 0 (minPrice - pricePadding), maxPrice + pricePadding)
    let lineColor := if isPriceUp then "#22c55e" else "#ef4444"
    { displayedData := displayed
      allDataForCalculations := allData
      yAxisDomain := domain
      chartColor := lineColor }

/-! ## Live Update Channel (`src/services/webSocketService.ts`)

The `WebSocketService` singleton.  JS `Map`s become insertion-ordered
association lists (`Map.has`/`get`/`set`/`delete`), JS `Set`s of
callbacks become insertion-ordered duplicate-free lists of callback
identifiers.  A transport (STOMP) subscription belongs to the connection
it was created on; we track a connection generation, bumped on every
successful connect, and tag each subscription with the generation it was
created under — a subscription only delivers messages while its
generation is the current one. -/

/-- JS `Map.has`. -/
def mapHas {α : Type} (m : List (String × α)) (k : String) : Bool :=
  m.any fun p => p.1 == k

/-- JS `Map.get` (`none` for a missing key). -/
def mapFind {α : Type} (m : List (String × α)) (k : String) : Option α :=
  (m.find? fun p => p.1 == k).map Prod.snd

/-- JS `Map.set`: update in place when present, append otherwise. -/
def mapSet {α : Type} (m : List (String × α)) (k : String) (v : α) :
    List (String × α) :=
  if mapHas m k then m.map fun p => if p.1 == k then (k, v) else p
  else m ++ [(k, v)]

/-- JS `Map.delete`. -/
def mapErase {α : Type} (m : List (String × α)) (k : String) :
    List (String × α) :=
  m.filter fun p => !(p.1 == k)

/-- JS `Set.add`: no-op on a duplicate, appended at the end otherwise. -/
def setAdd (s : List ℕ) (x : ℕ) : List ℕ :=
  if x ∈ s then s else s ++ [x]

/-- JS `Set.delete`. -/
def setErase (s : List ℕ) (x : ℕ) : List ℕ :=
  s.filter fun y => !(y == x)

/-- A transport-level subscription entry of the `subscriptions` map:
keyed by topic, carrying the symbol string the message handler closure
captured (it looks listeners up with `symbol.toUpperCase()` at delivery
time) and the connection generation the subscription was created on. -/
structure SubEntry where
  handlerSymbol : String
  createdGen : ℕ
deriving DecidableEq, Repr

/-- The mutable fields of the `WebSocketService` class (lines 10-16),
plus the bookkeeping needed to observe the claims: a running promise
identifier, a count of `client.activate()` calls (transport connection
attempts), and the current connection generation. -/
structure WSState where
  clientSet : Bool
  connected : Bool
  connectionPromise : Option ℕ
  subscriptions : List (String × SubEntry)
  priceCallbacks : List (String × List ℕ)
  chartCallbacks : List (String × List ℕ)
  nextPromiseId : ℕ
  attemptsStarted : ℕ
  generation : ℕ
deriving DecidableEq, Repr

/-- The freshly constructed singleton. -/
def initialWS : WSState :=
  { clientSet := false
    connected := false
    connectionPromise := none
    subscriptions := []
    priceCallbacks := []
    chartCallbacks := []
    nextPromiseId := 0
    attemptsStarted := 0
    generation := 0 }

/-- The price topic for a symbol (line 102). -/
def priceTopic (symbol : String) : String :=
  "/topic/prices/" ++ jsToUpper symbol

/-- The chart topic for a symbol and timeframe (line 133). -/
def chartTopic (symbol timeframe : String) : String :=
  "/topic/charts/" ++ jsToUpper symbol ++ "/" ++ timeframe

/-- Model of `init()` (lines 19-78): returns the existing promise when one is
present; otherwise records a fresh promise and starts one transport
connection attempt (`client.activate()`).  Returns the promise
identifier handed back to the caller. -/
def wsInit (s : WSState) : WSState × ℕ :=
  match s.connectionPromise with
  | some p => (s, p)
  | none =>
    let p := s.nextPromiseId
    ({ s with
        connectionPromise := some p
        nextPromiseId := p + 1
        attemptsStarted := s.attemptsStarted + 1 }, p)

/-- Model of `subscribeToPrice` (lines 96-124): requires a connected client; the
duplicate guard keys on the topic alone — any entry in the
`subscriptions` map, from any generation, suppresses the subscribe. -/
def subscribeToPrice (s : WSState) (symbol : String) : WSState :=
  if !(s.clientSet && s.connected) then s
  else
    let topic := priceTopic symbol
    if mapHas s.subscriptions topic then s
    else
      { s with
          subscriptions :=
            s.subscriptions ++
              [(topic, { handlerSymbol := symbol, createdGen := s.generation })] }

/-- Model of `subscribeToChart` (lines 127-156), mirroring `subscribeToPrice`. -/
def subscribeToChart (s : WSState) (symbol timeframe : String) : WSState :=
  if !(s.clientSet && s.connected) then s
  else
    let topic := chartTopic symbol timeframe
    if mapHas s.subscriptions topic then s
    else
      { s with
          subscriptions :=
            s.subscriptions ++
              [(topic, { handlerSymbol := symbol, createdGen := s.generation })] }

/-- Model of `resubscribeAll` (lines 81-93): replay the price-callback keys, then
the chart-callback keys (each `topicKey` split at `/` into symbol and
timeframe). -/
def resubscribeAll (s : WSState) : WSState :=
  let s1 := (s.priceCallbacks.map Prod.fst).foldl subscribeToPrice s
  (s.chartCallbacks.map Prod.fst).foldl
    (fun acc topicKey =>
      let parts := topicKey.splitOn "/"
      subscribeToChart acc (parts.getD 0 "") (parts.getD 1 ""))
    s1

/-- The `onConnect` handler (lines 38-48): store the client, mark
connected (a new connection generation), and resubscribe every
registered topic.  The connection promise resolves here and stays in
place. -/
def wsOnConnect (s : WSState) : WSState :=
  let s := { s with
               clientSet := true
               connected := true
               generation := s.generation + 1 }
  resubscribeAll s

/-- The registration half of `onPriceUpdate` (lines 159-179): guard
against an empty symbol, add the callback to the symbol's set (creating
it when needed), and call `init()`.  The `.then` continuation that runs
`subscribeToPrice` once the connection promise resolves is modelled
separately as `priceSubContinuation`. -/
def onPriceUpdateRegister (s : WSState) (symbol : String) (cb : ℕ) : WSState :=
  if symbol == "" then s
  else
    let upperSymbol := jsToUpper symbol
    let m :=
      if mapHas s.priceCallbacks upperSymbol then s.priceCallbacks
      else s.priceCallbacks ++ [(upperSymbol, [])]
    let callbacks := (mapFind m upperSymbol).getD []
    let s := { s with priceCallbacks := mapSet m upperSymbol (setAdd callbacks cb) }
    (wsInit s).1

/-- The `.then` continuation of `onPriceUpdate` (lines 174-179),
executed when the connection promise is resolved: subscribe the
uppercased symbol. -/
def priceSubContinuation (s : WSState) (symbol : String) : WSState :=
  subscribeToPrice s (jsToUpper symbol)

/-- The unsubscribe closure returned by `onPriceUpdate` (lines 182-192):
drop the callback from the symbol's set and drop the empty set — but
never the transport-level subscription. -/
def unsubscribePrice (s : WSState) (symbol : String) (cb : ℕ) : WSState :=
  let upperSymbol := jsToUpper symbol
  match mapFind s.priceCallbacks upperSymbol with
  | none => s
  | some callbackSet =>
    let callbackSet := setErase callbackSet cb
    if callbackSet.length == 0 then
      { s with priceCallbacks := mapErase s.priceCallbacks upperSymbol }
    else
      { s with priceCallbacks := mapSet s.priceCallbacks upperSymbol callbackSet }

/-- Model of `reconnect()` (lines 256-267): deactivate the client, clear the
connected flag and the connection promise — the `subscriptions` map is
left as it is.  The delayed `init()` is a separate later step. -/
def wsReconnect (s : WSState) : WSState :=
  { s with
      clientSet := false
      connected := false
      connectionPromise := none }

/-- Model of `disconnect()` (lines 270-280): like `reconnect` but also clears the
`subscriptions` map. -/
def wsDisconnect (s : WSState) : WSState :=
  { s with
      clientSet := false
      connected := false
      connectionPromise := none
      subscriptions := [] }

/-- The listeners a price message for `symbol` reaches (the handler
closure of lines 106-119): the message arrives only over a transport
subscription of the current connection; the handler then looks the
callback set up under the captured symbol, uppercased. -/
def deliverPrice (s : WSState) (symbol : String) : List ℕ :=
  match mapFind s.subscriptions (priceTopic symbol) with
  | none => []
  | some entry =>
    if entry.createdGen == s.generation then
      (mapFind s.priceCallbacks (jsToUpper entry.handlerSymbol)).getD []
    else []

/-- Number of transport subscriptions for `topic` that are live on the
current connection. -/
def activeSubsCount (s : WSState) (topic : String) : ℕ :=
  (s.subscriptions.filter fun p =>
    p.1 == topic && p.2.createdGen == s.generation).length

/-- Number of `subscriptions`-map entries for `topic` (any generation). -/
def totalSubsCount (s : WSState) (topic : String) : ℕ :=
  (s.subscriptions.filter fun p => p.1 == topic).length

/-! ## Concrete scenarios used by the claims -/

/-- Runs `n` successive `init()` calls: the promise ids handed back, and the
final state. -/
def initCalls : ℕ → WSState → List ℕ × WSState
  | 0, s => ([], s)
  | n + 1, s =>
    let r := wsInit s
    let rest := initCalls n r.1
    (r.2 :: rest.1, rest.2)

/-- Service state after one listener (`cb`) registered for `sym`, the
connection succeeded, and the registration's `.then` continuation ran:
the steady state of a page with one live price subscription. -/
def wsOneListener (sym : String) (cb : ℕ) : WSState :=
  priceSubContinuation (wsOnConnect (onPriceUpdateRegister initialWS sym cb)) sym

/-- State `wsOneListener`, then a second listener (`cb2`) registered for the
same symbol and its continuation run on the already-resolved connection
promise. -/
def wsTwoListeners (sym : String) (cb1 cb2 : ℕ) : WSState :=
  priceSubContinuation (onPriceUpdateRegister (wsOneListener sym cb1) sym cb2) sym

/-- The reconnect flow applied to the one-listener steady state:
`reconnect()` (teardown), the delayed `init()`, and a successful
connection (`onConnect`, which runs `resubscribeAll`). -/
def wsAfterReconnect (sym : String) (cb : ℕ) : WSState :=
  wsOnConnect ((wsInit (wsReconnect (wsOneListener sym cb))).1)

/-- A page state with an established AAPL baseline of 140, as in the
spec's tick scenario. -/
def baseline140 : PageState :=
  { symbol := "AAPL"
    timeframe := "1d"
    currentTimeframeStartPrice := 140
    currentPrice := 140
    metrics := { priceChange := 0, percentChange := 0, isPriceUp := false } }

/-- A 25-point series, as in the spec's animation scenario. -/
def series25 : ChartData :=
  { title := "AAPL 1 Month"
    xAxisLabel := "Time"
    yAxisLabel := "Price"
    labels := (List.range 25).map fun i => "t" ++ toString (i + 1)
    priceDataset := some ((List.range 25).map fun i => (100 + i : ℚ))
    otherDatasets := [] }

/-- A one-point chart with a second dataset, used to witness the
live-append frame conditions. -/
def chartSample : ChartData :=
  { title := "ARM 1 Day"
    xAxisLabel := "Time"
    yAxisLabel := "Price"
    labels := ["09:30"]
    priceDataset := some [100]
    otherDatasets := [("Volume", [5])] }

/-! ## Helper lemmas -/

theorem char_toUpper_toNat_bounds {c : Char} (h : 97 ≤ c.toNat ∧ c.toNat ≤ 122) :
    (Char.ofNat (c.toNat - 32)).toNat = c.toNat - 32 := by
  have hvalid : (c.toNat - 32).isValidChar := by
    left
    omega
  rw [Char.ofNat, dif_pos hvalid]
  simp [Char.ofNatAux, Char.toNat, UInt32.toNat]

theorem char_toUpper_idem (c : Char) : c.toUpper.toUpper = c.toUpper := by
  unfold Char.toUpper
  by_cases h : 97 ≤ c.toNat ∧ c.toNat ≤ 122
  · rw [if_pos h]
    have hb := char_toUpper_toNat_bounds h
    rw [if_neg]
    rw [hb]
    omega
  · rw [if_neg h, if_neg h]

theorem jsToUpper_eq_map (s : String) : jsToUpper s = s.map Char.toUpper := by
  rw [String.map_eq]
  rfl

theorem jsToUpper_idem (s : String) : jsToUpper (jsToUpper s) = jsToUpper s := by
  simp only [jsToUpper, List.map_map]
  exact congrArg _ (List.map_congr_left fun c _ => char_toUpper_idem c)

theorem wsInit_inflight (s : WSState) (p : ℕ) (h : s.connectionPromise = some p) :
    wsInit s = (s, p) := by
  simp [wsInit, h]

theorem initCalls_inflight (n : ℕ) (s : WSState) (p : ℕ)
    (h : s.connectionPromise = some p) :
    initCalls n s = (List.replicate n p, s) := by
  induction n with
  | zero => simp [initCalls]
  | succ k ih => simp [initCalls, wsInit_inflight s p h, ih, List.replicate_succ]

theorem reload_reset_or_pos (sym tf : String) (prices : List ℚ) :
    reloadStep sym tf prices = pageReset sym tf ∨
    0 < (reloadStep sym tf prices).currentTimeframeStartPrice := by
  rcases h : prices.filter (fun q => validFilter (JSNum.fin q)) with _ | ⟨x, xs⟩
  · left
    simp [reloadStep, h]
  · right
    have hx : x ∈ prices.filter (fun q => validFilter (JSNum.fin q)) := by
      rw [h]
      exact List.mem_cons_self x xs
    have hpos : 0 < x := by
      have hf := (List.mem_filter.1 hx).2
      simp [validFilter, JSNum.truthy, JSNum.jsIsNaN, JSNum.gtZero] at hf
      exact hf.2
    simpa [reloadStep, h] using hpos

theorem stepEvent_inv (st : PageState) (e : PageEvent)
    (h : st.currentTimeframeStartPrice ≤ 0 →
      st.metrics.percentChange = 0 ∧ st.metrics.priceChange = 0) :
    (stepEvent st e).currentTimeframeStartPrice ≤ 0 →
      (stepEvent st e).metrics.percentChange = 0 ∧
      (stepEvent st e).metrics.priceChange = 0 := by
  cases e with
  | reload sym tf prices =>
    rcases reload_reset_or_pos sym tf prices with hr | hr
    · intro _
      simp only [stepEvent] at *
      rw [hr]
      simp [pageReset]
    · intro hle
      simp only [stepEvent] at hle
      exact absurd hle (not_le.2 hr)
  | tick sym price =>
    simp only [stepEvent, processTick]
    split
    · rename_i hc
      intro hle
      simp only [tickAccepted, Bool.and_eq_true, Bool.not_eq_true',
        decide_eq_false_iff_not] at hc
      exact absurd hle hc.1
    · exact h
  | refresh price =>
    simp only [stepEvent, refreshStep]
    split
    · rename_i hc
      intro hle
      exact absurd hle (not_le.2 hc)
    · exact h

theorem runEvents_inv (es : List PageEvent) (st : PageState)
    (h : st.currentTimeframeStartPrice ≤ 0 →
      st.metrics.percentChange = 0 ∧ st.metrics.priceChange = 0) :
    (runEvents st es).currentTimeframeStartPrice ≤ 0 →
      (runEvents st es).metrics.percentChange = 0 ∧
      (runEvents st es).metrics.priceChange = 0 := by
  induction es generalizing st with
  | nil => exact h
  | cons e rest ih => exact ih (stepEvent st e) (stepEvent_inv st e h)

theorem revealStepsFrom_chain (n c : ℕ) :
    List.Chain (· ≤ ·) c (revealStepsFrom c n) := by
  rw [revealStepsFrom]
  split
  · exact List.Chain.nil
  · rename_i h
    refine List.Chain.cons ?_ (revealStepsFrom_chain n _)
    simp only [POINTS_PER_STEP]
    omega
termination_by n - c
decreasing_by
  simp only [POINTS_PER_STEP]
  omega

theorem revealStepsFrom_last (n c : ℕ) (h : c ≤ n) :
    (c :: revealStepsFrom c n).getLast? = some n := by
  rw [revealStepsFrom]
  split
  · rename_i hle
    simp only [List.getLast?_singleton, Option.some.injEq]
    omega
  · rename_i hgt
    rw [List.getLast?_cons_cons]
    exact revealStepsFrom_last n _ (Nat.min_le_right _ _)
termination_by n - c
decreasing_by
  simp only [POINTS_PER_STEP]
  omega

theorem revealSeq_concrete : revealSeq 25 = [8, 14, 20, 25] := by
  have h1 : revealStepsFrom 8 25 = 14 :: revealStepsFrom 14 25 := by
    rw [revealStepsFrom]
    norm_num [POINTS_PER_STEP]
  have h2 : revealStepsFrom 14 25 = 20 :: revealStepsFrom 20 25 := by
    rw [revealStepsFrom]
    norm_num [POINTS_PER_STEP]
  have h3 : revealStepsFrom 20 25 = 25 :: revealStepsFrom 25 25 := by
    rw [revealStepsFrom]
    norm_num [POINTS_PER_STEP]
  have h4 : revealStepsFrom 25 25 = [] := by
    rw [revealStepsFrom]
    norm_num
  rw [revealSeq, INITIAL_POINTS, h1, h2, h3, h4]

theorem wsOneListener_eq (sym : String) (cb : ℕ) (hsym : sym ≠ "") :
    wsOneListener sym cb =
      { clientSet := true
        connected := true
        connectionPromise := some 0
        subscriptions :=
          [("/topic/prices/" ++ jsToUpper sym,
            { handlerSymbol := jsToUpper sym, createdGen := 1 })]
        priceCallbacks := [(jsToUpper sym, [cb])]
        chartCallbacks := []
        nextPromiseId := 1
        attemptsStarted := 1
        generation := 1 } := by
  have hbe : (sym == "") = false := by
    simp [hsym]
  have h1 : onPriceUpdateRegister initialWS sym cb =
      { clientSet := false
        connected := false
        connectionPromise := some 0
        subscriptions := []
        priceCallbacks := [(jsToUpper sym, [cb])]
        chartCallbacks := []
        nextPromiseId := 1
        attemptsStarted := 1
        generation := 0 } := by
    simp [onPriceUpdateRegister, hbe, initialWS, mapHas, mapFind, mapSet,
      setAdd, wsInit]
  have h2 : wsOnConnect (onPriceUpdateRegister initialWS sym cb) =
      { clientSet := true
        connected := true
        connectionPromise := some 0
        subscriptions :=
          [("/topic/prices/" ++ jsToUpper sym,
            { handlerSymbol := jsToUpper sym, createdGen := 1 })]
        priceCallbacks := [(jsToUpper sym, [cb])]
        chartCallbacks := []
        nextPromiseId := 1
        attemptsStarted := 1
        generation := 1 } := by
    rw [h1]
    simp [wsOnConnect, resubscribeAll, subscribeToPrice, mapHas, priceTopic,
      jsToUpper_idem]
  rw [wsOneListener, h2]
  simp [priceSubContinuation, subscribeToPrice, mapHas, priceTopic,
    jsToUpper_idem]

theorem wsTwoListeners_eq (sym : String) (cb1 cb2 : ℕ) (hsym : sym ≠ "")
    (hcb : cb1 ≠ cb2) :
    wsTwoListeners sym cb1 cb2 =
      { clientSet := true
        connected := true
        connectionPromise := some 0
        subscriptions :=
          [("/topic/prices/" ++ jsToUpper sym,
            { handlerSymbol := jsToUpper sym, createdGen := 1 })]
        priceCallbacks := [(jsToUpper sym, [cb1, cb2])]
        chartCallbacks := []
        nextPromiseId := 1
        attemptsStarted := 1
        generation := 1 } := by
  have hbe : (sym == "") = false := by
    simp [hsym]
  rw [wsTwoListeners, wsOneListener_eq sym cb1 hsym]
  have h4 : onPriceUpdateRegister
      { clientSet := true
        connected := true
        connectionPromise := some 0
        subscriptions :=
          [("/topic/prices/" ++ jsToUpper sym,
            { handlerSymbol := jsToUpper sym, createdGen := 1 })]
        priceCallbacks := [(jsToUpper sym, [cb1])]
        chartCallbacks := []
        nextPromiseId := 1
        attemptsStarted := 1
        generation := 1 } sym cb2 =
      { clientSet := true
        connected := true
        connectionPromise := some 0
        subscriptions :=
          [("/topic/prices/" ++ jsToUpper sym,
            { handlerSymbol := jsToUpper sym, createdGen := 1 })]
        priceCallbacks := [(jsToUpper sym, [cb1, cb2])]
        chartCallbacks := []
        nextPromiseId := 1
        attemptsStarted := 1
        generation := 1 } := by
    simp [onPriceUpdateRegister, hbe, mapHas, mapFind, mapSet, setAdd, wsInit,
      Ne.symm hcb]
  rw [h4]
  simp [priceSubContinuation, subscribeToPrice, mapHas, priceTopic,
    jsToUpper_idem]

/-! ## Claim theorems -/

/-- C1.  The claim states that after `reconnect()` and a successful
connection every previously-registered topic has exactly one active
transport subscription on the new connection.  The code violates this:
`reconnect()` never clears the `subscriptions` map, so `resubscribeAll`
finds the stale pre-reconnect entry and skips the subscribe, leaving the
registered topic with zero live subscriptions on the new connection (and
zero message delivery), while its listener registration is still
present.  Before the reconnect the steady state is as specified (one
active subscription, delivery works). -/
theorem c1_reconnect_skips_resubscription :
    activeSubsCount (wsOneListener "AAPL" 0) (priceTopic "AAPL") = 1 ∧
    deliverPrice (wsOneListener "AAPL" 0) "AAPL" = [0] ∧
    (wsAfterReconnect "AAPL" 0).connected = true ∧
    mapHas (wsAfterReconnect "AAPL" 0).priceCallbacks (jsToUpper "AAPL") = true ∧
    activeSubsCount (wsAfterReconnect "AAPL" 0) (priceTopic "AAPL") = 0 ∧
    totalSubsCount (wsAfterReconnect "AAPL" 0) (priceTopic "AAPL") = 1 ∧
    deliverPrice (wsAfterReconnect "AAPL" 0) "AAPL" = [] := by
  decide

/-- C2, counterexample.  The claim states that the market-status poll
interval is short when the market is flagged open and long when it is
flagged closed; in `page.tsx` the interval handed to `setInterval` is
the constant `30_000`, so two runs differing only in the market-open
flag get the same interval, not different ones. -/
theorem c2_poll_interval_flag_counterexample :
    pollIntervalMs true = pollIntervalMs false ∧ pollIntervalMs true = 30000 := by
  decide

/-- C2, amended.  The poll in `page.tsx` runs on a fixed 30-second
interval regardless of the market-open flag; the flag only gates whether
the poll body refreshes the price (together with a positive baseline).
The short/long-interval behavior (15 s open, 60 s closed) exists only in
the superseded `HomePage` variant kept in the repository. -/
theorem c2_poll_interval_amended :
    (∀ isMarketOpen : Bool, pollIntervalMs isMarketOpen = 30000) ∧
    (∀ (isOpen : Bool) (startPrice : ℚ),
      pollRefreshesPrice isOpen startPrice = (isOpen && decide (0 < startPrice))) ∧
    legacyRefreshIntervalMs true = 15000 ∧
    legacyRefreshIntervalMs false = 60000 := by
  exact ⟨fun _ => rfl, fun _ _ => rfl, rfl, rfl⟩

/-- C3, counterexample.  The claim says the reload filter keeps only
strictly-positive finite values, so a dataset containing only `Infinity`
would leave the baseline reset.  The code's filter
(`price && !isNaN(price) && price > 0`) does not test finiteness:
`Infinity` passes it and becomes the baseline. -/
theorem c3_infinite_value_counterexample :
    List.filter specValidFilter [JSNum.posInf] = [] ∧
    establishBaseline [JSNum.posInf] = some (JSNum.posInf, JSNum.posInf) := by
  decide

/-- C3, amended.  On every series reload the baseline is computed by
filtering the `Price` sequence to truthy, non-`NaN`, strictly-positive
values (which admits positive infinity, unlike the claim's "finite"): if
any value survives, the baseline is the first and last surviving value;
otherwise the page state stays in its reset (zero) state, suppressing
change computations. -/
theorem c3_baseline_filter_amended :
    (∀ prices : List JSNum,
      establishBaseline prices =
        ((prices.filter validFilter).head?).bind fun a =>
          ((prices.filter validFilter).getLast?).map fun b => (a, b)) ∧
    (∀ (sym tf : String) (prices : List ℚ),
      prices.filter (fun q => validFilter (JSNum.fin q)) = [] →
        reloadStep sym tf prices = pageReset sym tf) := by
  constructor
  · intro prices
    rcases h : prices.filter validFilter with _ | ⟨x, xs⟩
    · simp [establishBaseline, h]
    · simp only [establishBaseline, h]
      rw [if_pos (by simp)]
      rw [List.getLast?_eq_getElem?]
      simp [List.getD]
  · intro sym tf prices h
    simp [reloadStep, h]

/-- C3, witness for the amended theorem: a dataset whose only value is
negative filters to nothing and leaves the page in the reset state. -/
theorem c3_baseline_filter_amended_witness :
    [(-1 : ℚ)].filter (fun q => validFilter (JSNum.fin q)) = [] ∧
    reloadStep "AAPL" "1d" [(-1 : ℚ)] = pageReset "AAPL" "1d" := by
  have hf : [(-1 : ℚ)].filter (fun q => validFilter (JSNum.fin q)) = [] := by
    decide
  exact ⟨hf, c3_baseline_filter_amended.2 "AAPL" "1d" [(-1 : ℚ)] hf⟩

/-- C4.  A live tick is accepted iff its symbol matches the active
symbol case-insensitively and the baseline start price is positive.  On
acceptance, `currentPrice` becomes the tick price, `priceChange` is tick
price minus start price, `percentChange` is the change over the start
price times 100, the direction flag is `priceChange ≥ 0`, and the
baseline start price is untouched; a rejected tick leaves the whole
state unchanged.  At start price 140 and tick price 150 this gives
change 10, percent change 7.14 after rounding to two decimals, and a
positive direction flag. -/
theorem c4_tick_acceptance_metrics :
    (∀ (st : PageState) (sym : String) (p : ℚ),
      (tickAccepted st sym = true ↔
        (jsToUpper sym = jsToUpper st.symbol ∧
          0 < st.currentTimeframeStartPrice)) ∧
      (tickAccepted st sym = true →
        (processTick st sym p).currentPrice = p ∧
        (processTick st sym p).metrics.priceChange =
          p - st.currentTimeframeStartPrice ∧
        (processTick st sym p).metrics.percentChange =
          (p - st.currentTimeframeStartPrice) /
            st.currentTimeframeStartPrice * 100 ∧
        (processTick st sym p).metrics.isPriceUp =
          decide (0 ≤ (processTick st sym p).metrics.priceChange) ∧
        (processTick st sym p).currentTimeframeStartPrice =
          st.currentTimeframeStartPrice) ∧
      (tickAccepted st sym = false → processTick st sym p = st)) ∧
    (processTick baseline140 "AAPL" 150).metrics.priceChange = 10 ∧
    toFixed2 (processTick baseline140 "AAPL" 150).metrics.percentChange =
      714 / 100 ∧
    (processTick baseline140 "AAPL" 150).metrics.isPriceUp = true := by
  have hconc : processTick baseline140 "AAPL" 150 =
      { symbol := "AAPL", timeframe := "1d", currentTimeframeStartPrice := 140,
        currentPrice := 150,
        metrics := { priceChange := 10, percentChange := 50 / 7,
                     isPriceUp := true } } := by
    simp only [processTick]
    rw [if_pos (by decide)]
    simp only [baseline140]
    norm_num
  refine ⟨fun st sym p => ⟨?_, ?_, ?_⟩, ?_, ?_, ?_⟩
  · simp [tickAccepted, and_comm, not_le]
  · intro h
    simp [processTick, h]
  · intro h
    simp [processTick, h]
  · rw [hconc]
  · rw [hconc]
    show toFixed2 (50 / 7 : ℚ) = 714 / 100
    rw [toFixed2, round_eq]
    norm_num
  · rw [hconc]

/-- C4, witness: the accepted-branch equations instantiated at the
140/150 scenario. -/
theorem c4_tick_acceptance_metrics_witness :
    tickAccepted baseline140 "AAPL" = true ∧
    (processTick baseline140 "AAPL" 150).currentPrice = 150 := by
  have h : tickAccepted baseline140 "AAPL" = true := by
    decide
  exact ⟨h, ((c4_tick_acceptance_metrics.1 baseline140 "AAPL" 150).2.1 h).1⟩

/-- C5.  Whenever the baseline start price is zero (its reset/missing
state), the percent change the page computes is zero: along any sequence
of reloads, ticks and refreshes from the initial state, a zero start
price always comes with zero change metrics (the tick and refresh paths
are guarded by a positive start price, and the reload path either
resets the metrics to zero or establishes a positive start price, so no
path ever divides by the zero start price), and the chart tooltip's
per-point change computation returns zero for a zero start price. -/
theorem c5_zero_baseline_percent_zero :
    (∀ es : List PageEvent,
      (runEvents initialPageState es).currentTimeframeStartPrice = 0 →
        (runEvents initialPageState es).metrics.percentChange = 0 ∧
        (runEvents initialPageState es).metrics.priceChange = 0) ∧
    (∀ p : ℚ, tooltipPercentChange 0 p = 0 ∧ tooltipPriceChange 0 p = 0) := by
  constructor
  · intro es h0
    exact runEvents_inv es initialPageState (fun _ => ⟨rfl, rfl⟩) (le_of_eq h0)
  · intro p
    constructor
    · simp [tooltipPercentChange]
    · simp [tooltipPriceChange]

/-- C5, witness: a tick against the pristine zero baseline is rejected
and the percent change stays zero. -/
theorem c5_zero_baseline_percent_zero_witness :
    (runEvents initialPageState
      [PageEvent.tick "AAPL" 150]).currentTimeframeStartPrice = 0 ∧
    (runEvents initialPageState
      [PageEvent.tick "AAPL" 150]).metrics.percentChange = 0 := by
  have h0 : (runEvents initialPageState
      [PageEvent.tick "AAPL" 150]).currentTimeframeStartPrice = 0 := by
    decide
  exact ⟨h0, (c5_zero_baseline_percent_zero.1 [PageEvent.tick "AAPL" 150] h0).1⟩

/-- C6.  Registering a second listener for a topic that already has one
creates no additional transport subscription (the topic keeps exactly
one, live on the current connection, and `init()` is not re-attempted),
a message on the topic reaches both listeners in registration order, and
running the unsubscribe closure of the first listener removes only that
listener: the transport subscription survives and messages still reach
the remaining listener. -/
theorem c6_one_transport_subscription_per_topic (sym : String) (cb1 cb2 : ℕ)
    (hsym : sym ≠ "") (hcb : cb1 ≠ cb2) :
    totalSubsCount (wsTwoListeners sym cb1 cb2) (priceTopic sym) = 1 ∧
    activeSubsCount (wsTwoListeners sym cb1 cb2) (priceTopic sym) = 1 ∧
    (wsTwoListeners sym cb1 cb2).attemptsStarted = 1 ∧
    deliverPrice (wsTwoListeners sym cb1 cb2) sym = [cb1, cb2] ∧
    (unsubscribePrice (wsTwoListeners sym cb1 cb2) sym cb1).subscriptions =
      (wsTwoListeners sym cb1 cb2).subscriptions ∧
    deliverPrice (unsubscribePrice (wsTwoListeners sym cb1 cb2) sym cb1) sym =
      [cb2] := by
  rw [wsTwoListeners_eq sym cb1 cb2 hsym hcb]
  refine ⟨?_, ?_, rfl, ?_, ?_, ?_⟩
  · simp [totalSubsCount, priceTopic]
  · simp [activeSubsCount, priceTopic]
  · simp [deliverPrice, mapFind, priceTopic, jsToUpper_idem]
  · simp [unsubscribePrice, mapFind, mapSet, mapErase, setErase,
      Ne.symm hcb, jsToUpper_idem]
  · simp [unsubscribePrice, deliverPrice, mapFind, mapHas, mapSet, mapErase,
      setErase, Ne.symm hcb, priceTopic, jsToUpper_idem]

/-- C6, witness: the AAPL topic with listeners 0 and 7. -/
theorem c6_one_transport_subscription_per_topic_witness :
    totalSubsCount (wsTwoListeners "AAPL" 0 7) (priceTopic "AAPL") = 1 ∧
    deliverPrice (wsTwoListeners "AAPL" 0 7) "AAPL" = [0, 7] := by
  have h := c6_one_transport_subscription_per_topic "AAPL" 0 7
    (by decide) (by decide)
  exact ⟨h.1, h.2.2.2.1⟩

/-- C7.  A full reload animates exactly when the point count is between
20 and 300 and the timeframe is 1d, 1w or 1m; the resulting sequence of
visible-point counts is monotonically non-decreasing and ends at the
total point count; an animated reload starts at 8 visible points; a
non-qualifying reload shows all points at once; and a 25-point reload
reveals 8, 14, 20, 25. -/
theorem c7_progressive_reveal (cd : ChartData) (tf : String) :
    (shouldAnimate (some cd) tf = true ↔
      ((tf = "1d" ∨ tf = "1w" ∨ tf = "1m") ∧
        20 ≤ cd.labels.length ∧ cd.labels.length ≤ 300)) ∧
    List.Chain' (· ≤ ·) (fullReloadCounts cd tf) ∧
    (fullReloadCounts cd tf).getLast? = some cd.labels.length ∧
    (shouldAnimate (some cd) tf = true →
      (fullReloadCounts cd tf).head? = some INITIAL_POINTS) ∧
    (shouldAnimate (some cd) tf = false →
      fullReloadCounts cd tf = [cd.labels.length]) ∧
    revealSeq 25 = [8, 14, 20, 25] := by
  have hiff : shouldAnimate (some cd) tf = true ↔
      ((tf = "1d" ∨ tf = "1w" ∨ tf = "1m") ∧
        20 ≤ cd.labels.length ∧ cd.labels.length ≤ 300) := by
    simp [shouldAnimate, ENABLE_FOR_TIMEFRAMES, MIN_POINTS_FOR_ANIMATION,
      MAX_POINTS_FOR_ANIMATION]
  refine ⟨hiff, ?_, ?_, ?_, ?_, revealSeq_concrete⟩
  · cases hA : shouldAnimate (some cd) tf with
    | true =>
      simp only [fullReloadCounts, hA, if_true]
      exact revealStepsFrom_chain cd.labels.length 8
    | false =>
      simp [fullReloadCounts, hA]
  · cases hA : shouldAnimate (some cd) tf with
    | true =>
      have h20 : 20 ≤ cd.labels.length := (hiff.1 hA).2.1
      simp only [fullReloadCounts, hA, if_true, revealSeq, INITIAL_POINTS]
      exact revealStepsFrom_last cd.labels.length 8 (by omega)
    | false =>
      simp [fullReloadCounts, hA]
  · intro hA
    simp [fullReloadCounts, hA, revealSeq]
  · intro hA
    simp [fullReloadCounts, hA]

/-- C7, witness: the spec's 25-point 1-month reload qualifies for
animation and starts at 8 visible points. -/
theorem c7_progressive_reveal_witness :
    shouldAnimate (some series25) "1m" = true ∧
    (fullReloadCounts series25 "1m").head? = some INITIAL_POINTS := by
  have h : shouldAnimate (some series25) "1m" = true := by
    decide
  exact ⟨h, (c7_progressive_reveal series25 "1m").2.2.2.1 h⟩

/-- C8.  The value-axis domain of the chart memo is a function of the
complete dataset only: it is the same for every value of the
visible-point count, so the axis never moves while points are being
revealed. -/
theorem c8_axis_domain_independent_of_reveal (cd : Option ChartData)
    (isPriceUp : Bool) (count1 count2 : ℕ) :
    (chartMemo cd isPriceUp count1).yAxisDomain =
      (chartMemo cd isPriceUp count2).yAxisDomain := by
  cases cd <;> rfl

/-- C9.  With no connection promise in flight, a burst of `init()` calls
hands every caller the promise created by the first call, starts exactly
one transport connection attempt in total, and leaves that promise in
place. -/
theorem c9_init_coalescing (s : WSState) (n : ℕ)
    (h : s.connectionPromise = none) :
    (initCalls (n + 1) s).1 = List.replicate (n + 1) s.nextPromiseId ∧
    ((initCalls (n + 1) s).2).attemptsStarted = s.attemptsStarted + 1 ∧
    ((initCalls (n + 1) s).2).connectionPromise = some s.nextPromiseId := by
  have hfst : wsInit s =
      ({ s with
          connectionPromise := some s.nextPromiseId
          nextPromiseId := s.nextPromiseId + 1
          attemptsStarted := s.attemptsStarted + 1 }, s.nextPromiseId) := by
    simp [wsInit, h]
  have hrest := initCalls_inflight n
      { s with
          connectionPromise := some s.nextPromiseId
          nextPromiseId := s.nextPromiseId + 1
          attemptsStarted := s.attemptsStarted + 1 } s.nextPromiseId rfl
  simp [initCalls, hfst, hrest, List.replicate_succ]

/-- C9, witness: three `init()` calls on the fresh singleton all return
promise 0 and start a single attempt. -/
theorem c9_init_coalescing_witness :
    initialWS.connectionPromise = none ∧
    (initCalls 3 initialWS).1 = List.replicate 3 initialWS.nextPromiseId ∧
    ((initCalls 3 initialWS).2).attemptsStarted =
      initialWS.attemptsStarted + 1 := by
  have h := c9_init_coalescing initialWS 2 rfl
  exact ⟨rfl, h.1, h.2.1⟩

/-- C10.  Appending an accepted tick to the chart data adds exactly one
label and one `Price` value at the end: the title, axis labels and all
other datasets are unchanged, both sequences grow by one, every
pre-existing element keeps its position, and if labels and prices were
index-aligned before they stay index-aligned. -/
theorem c10_live_append_frame (cd : ChartData) (label : String) (price : ℚ)
    (h : cd.labels.length = (cd.priceDataset.getD []).length) :
    (appendTick cd label price).title = cd.title ∧
    (appendTick cd label price).xAxisLabel = cd.xAxisLabel ∧
    (appendTick cd label price).yAxisLabel = cd.yAxisLabel ∧
    (appendTick cd label price).otherDatasets = cd.otherDatasets ∧
    (appendTick cd label price).labels = cd.labels ++ [label] ∧
    (appendTick cd label price).priceDataset.getD [] =
      cd.priceDataset.getD [] ++ [price] ∧
    (appendTick cd label price).labels.length = cd.labels.length + 1 ∧
    ((appendTick cd label price).priceDataset.getD []).length =
      (cd.priceDataset.getD []).length + 1 ∧
    (appendTick cd label price).labels.take cd.labels.length = cd.labels ∧
    ((appendTick cd label price).priceDataset.getD []).take
      (cd.priceDataset.getD []).length = cd.priceDataset.getD [] ∧
    (appendTick cd label price).labels.length =
      ((appendTick cd label price).priceDataset.getD []).length := by
  simp [appendTick, List.take_left, h]

/-- C10, witness: appending the 09:31 tick to a one-point chart. -/
theorem c10_live_append_frame_witness :
    chartSample.labels.length = (chartSample.priceDataset.getD []).length ∧
    (appendTick chartSample "09:31" 101).labels =
      chartSample.labels ++ ["09:31"] := by
  have h : chartSample.labels.length =
      (chartSample.priceDataset.getD []).length := by
    decide
  exact ⟨h, (c10_live_append_frame chartSample "09:31" 101 h).2.2.2.2.1⟩
